import Mathlib

/-
Shallow embedding of the PDF form filler / flattener
(src/simple_pdf_filler.py and the field-loading traversal of
src/pdf_form_gui.py), together with theorems settling the frozen
claims about it.

Machine conventions:
  * PDF name objects and text strings are Lean `String`s (including the
    leading "/" of names).
  * Python dictionaries that the code reads and updates are association
    lists with first-match lookup and prepend-style insertion.
  * Coordinates are rationals; the geometry used by the flattener
    (max / min / linear arithmetic) is exact on the inputs exercised.
  * A Python expression that may raise inside the option parser is
    modelled by `PyStr` (a computed string, or a raised exception).
-/

set_option autoImplicit false

namespace PDFFiller

/-- Result of a Python `str(...)` call that may raise. -/
inductive PyStr where
  | ok (s : String)
  | err
deriving DecidableEq, Repr

/-- One raw item of a field's `/Opt` array, as seen by `_choice_options`:
either an array-like pair (with the results of `str(obj[0])`,
`str(obj[1])` and `str(obj)`), or a plain scalar (with `str(obj)`). -/
inductive RawOpt where
  | pairObj (first second whole : PyStr)
  | strObj (whole : PyStr)
deriving DecidableEq, Repr

/-- A value supplied in the caller's data mapping: a string, a boolean,
or a collection (list/set/tuple) of strings. -/
inductive FieldValue where
  | str (s : String)
  | bool (b : Bool)
  | coll (l : List String)
deriving DecidableEq, Repr

/-- A stored `/V` value: a text string object or an array of strings. -/
inductive PdfVal where
  | str (s : String)
  | arr (l : List String)
deriving DecidableEq, Repr

/-- Python truthiness of a `FieldValue` (`bool(v)`). -/
def pyTruthy : FieldValue → Bool
  | .str s => !(s == "")
  | .bool b => b
  | .coll l => !l.isEmpty

/-- Python `str(...)` of a list of strings, as used when a collection is
coerced to text. -/
def pyListStr (l : List String) : String :=
  "[" ++ String.intercalate ", " (l.map (fun s => "'" ++ s ++ "'")) ++ "]"

/-- Python `str(...)` of a `FieldValue`. -/
def pyStr : FieldValue → String
  | .str s => s
  | .bool b => if b then "True" else "False"
  | .coll l => pyListStr l

/-- First-match association-list lookup (Python `dict.get` /
`key in dict`). -/
def alookup {α : Type} (l : List (String × α)) (k : String) : Option α :=
  match l.find? (fun p => p.1 == k) with
  | some p => some p.2
  | none => none

/-- Dictionary update (`d[k] = v`): prepend, so that first-match lookup
sees the new binding. -/
def ainsert {α : Type} (l : List (String × α)) (k : String) (v : α) :
    List (String × α) :=
  (k, v) :: l

/-- The caller's data mapping. -/
def DataMap : Type := List (String × FieldValue)

/-- The per-name occurrence counters (`name_counts`). -/
def Counts : Type := List (String × Nat)

/-- The field-relevant keys of a PDF dictionary. -/
structure Field where
  T : Option String
  FT : Option String
  Ff : Nat
  V : Option PdfVal
  Opt : Option (List RawOpt)
deriving DecidableEq, Repr

/-- A page annotation: widget keys plus the field keys of its own
dictionary (`Fld`) and, optionally, a parent field dictionary. -/
structure Annot where
  Subtype : Option String
  Parent : Option Field
  Fld : Field
  Rect : ℚ × ℚ × ℚ × ℚ
  AP : Option (List (String × List String))
  AS : Option String
deriving DecidableEq, Repr

/-- `_get_field_from_annot`: `annot.get("/Parent", annot)`. -/
def _get_field_from_annot (a : Annot) : Field :=
  match a.Parent with
  | some f => f
  | none => a.Fld

/-- Write an updated field dictionary back to where it lives (the parent
dictionary when there is one, else the annotation itself). -/
def setField (a : Annot) (f : Field) : Annot :=
  match a.Parent with
  | some _ => { a with Parent := some f }
  | none => { a with Fld := f }

/-- `_is_widget`. -/
def _is_widget (a : Annot) : Bool :=
  a.Subtype == some "/Widget"

/-- `_ff`. -/
def _ff (f : Field) : Nat := f.Ff

/-- `_is_pushbutton`: bit 16 of `/Ff`. -/
def _is_pushbutton (f : Field) : Bool := Nat.testBit (_ff f) 16

/-- `_is_radio`: bit 15 of `/Ff`. -/
def _is_radio (f : Field) : Bool := Nat.testBit (_ff f) 15

/-- `_is_text`. -/
def _is_text (f : Field) : Bool := f.FT == some "/Tx"

/-- `_is_checkbox`. -/
def _is_checkbox (f : Field) : Bool :=
  f.FT == some "/Btn" && !_is_pushbutton f

/-- `_is_choice`. -/
def _is_choice (f : Field) : Bool := f.FT == some "/Ch"

/-- `_choice_is_multiselect`: bit 21 of `/Ff`. -/
def _choice_is_multiselect (f : Field) : Bool := Nat.testBit (_ff f) 21

/-- `_checkbox_on_name`: the first key of the normal appearance
dictionary that is not "/Off", with "/Yes" as the default. -/
def _checkbox_on_name (a : Annot) : String :=
  match a.AP with
  | none => "/Yes"
  | some ap =>
      if ap.isEmpty then "/Yes"
      else
        match alookup ap "/N" with
        | none => "/Yes"
        | some n =>
            if n.isEmpty then "/Yes"
            else
              match n.find? (fun k => !(k == "/Off")) with
              | some k => k
              | none => "/Yes"

/-- `_set_checkbox_state`: update the annotation's `/AS`. -/
def _set_checkbox_state (a : Annot) (checked : Bool) : Annot :=
  { a with AS := some (if checked then _checkbox_on_name a else "/Off") }

/-- `_set_text_value`: update the field's `/V`. -/
def _set_text_value (f : Field) (value : String) : Field :=
  { f with V := some (PdfVal.str value) }

/-- The body of the first parsing loop of `_choice_options` for one
`/Opt` item; `PyStr.err` propagation models a raised exception. -/
def parseOpt1 : RawOpt → Except Unit (String × String)
  | .pairObj f s _ =>
      match f with
      | .err => .error ()
      | .ok e =>
          match s with
          | .ok d => .ok (e, d)
          | .err => .ok (e, e)
  | .strObj w =>
      match w with
      | .ok s => .ok (s, s)
      | .err => .error ()

/-- The first parsing loop of `_choice_options`: the pairs accumulated
before any exception, and whether the loop finished without raising. -/
def optLoop1 : List RawOpt → List (String × String) × Bool
  | [] => ([], true)
  | o :: rest =>
      match parseOpt1 o with
      | .error _ => ([], false)
      | .ok p =>
          let r := optLoop1 rest
          (p :: r.1, r.2)

/-- `str(it)` of a raw `/Opt` item, as used by the fallback loop. -/
def rawStr : RawOpt → PyStr
  | .pairObj _ _ w => w
  | .strObj w => w

/-- The fallback loop of `_choice_options`: `(s, s)` entries until the
first item whose `str(...)` raises. -/
def optLoop2 : List RawOpt → List (String × String)
  | [] => []
  | o :: rest =>
      match rawStr o with
      | .err => []
      | .ok s => (s, s) :: optLoop2 rest

/-- `_choice_options`: list of (export, display) pairs from `/Opt`. -/
def _choice_options (f : Field) : List (String × String) :=
  match f.Opt with
  | none => []
  | some opts =>
      let r := optLoop1 opts
      if r.2 then r.1 else r.1 ++ optLoop2 opts

/-- `_choice_export_to_display`. -/
def _choice_export_to_display (f : Field) (export_ : String) : String :=
  match (_choice_options f).find? (fun p => p.1 == export_) with
  | some p => p.2
  | none => export_

/-- `_choice_display_to_export`: the export set is checked first, then
the display-label dictionary (whose comprehension keeps the last pair
for a repeated display label), and finally the input is passed through. -/
def _choice_display_to_export (f : Field) (display_or_export : String) :
    String :=
  if ((_choice_options f).map Prod.fst).contains display_or_export then
    display_or_export
  else
    match (_choice_options f).reverse.find?
        (fun p => p.2 == display_or_export) with
    | some p => p.1
    | none => display_or_export

/-- `_set_choice_value`: store the display-resolved export value(s). -/
def _set_choice_value (f : Field) (value : FieldValue) : Field :=
  match value with
  | .coll l =>
      { f with V := some (PdfVal.arr
          (l.map (fun v => _choice_display_to_export f v))) }
  | .str s =>
      { f with V := some (PdfVal.str (_choice_display_to_export f s)) }
  | .bool b =>
      { f with V := some (PdfVal.str
          (_choice_display_to_export f (pyStr (.bool b)))) }

/-- `name_str = str(name) if name else None` (an absent or empty `/T`
gives `None`). -/
def nameStr (f : Field) : Option String :=
  match f.T with
  | some s => if s == "" then none else some s
  | none => none

/-- The checkbox resolution of `fill_pdf_fields` (lines 161-168): the
per-widget key first, then a collection under the bare name, then a
boolean under the bare name; `none` means the widget is not touched. -/
def resolveCheckbox (data : DataMap) (ns : Option String) (idx : Nat)
    (a : Annot) : Option Bool :=
  match ns with
  | none => none
  | some n =>
      match alookup data (n ++ "__" ++ toString idx) with
      | some v => some (pyTruthy v)
      | none =>
          match alookup data n with
          | some (FieldValue.coll l) =>
              let on_name := _checkbox_on_name a
              some (l.contains (on_name.drop 1) || l.contains on_name)
          | some (FieldValue.bool b) => some b
          | _ => none

/-- The body of `fill_pdf_fields`'s annotation loop: one annotation is
processed against the data mapping and the per-name counters. -/
def processAnnot (data : DataMap) (counts : Counts) (a : Annot) :
    Annot × Counts :=
  if !_is_widget a then (a, counts)
  else
    let field := _get_field_from_annot a
    let ns := nameStr field
    if _is_text field then
      (match ns with
       | some n =>
           match alookup data n with
           | some v => setField a (_set_text_value field (pyStr v))
           | none => a
       | none => a, counts)
    else if _is_checkbox field && !_is_radio field then
      let key := ns.getD ""
      let idx := (alookup counts key).getD 0 + 1
      let counts' := ainsert counts key idx
      match resolveCheckbox data ns idx a with
      | some c => (_set_checkbox_state a c, counts')
      | none => (a, counts')
    else if _is_choice field then
      (match ns with
       | some n =>
           match alookup data n with
           | some v => setField a (_set_choice_value field v)
           | none => a
       | none => a, counts)
    else (a, counts)

/-- Drawing operations issued on the overlay canvas. -/
inductive DrawOp where
  | setFont (name : String) (size : ℚ)
  | setFillGray (g : ℚ)
  | setStrokeGray (g : ℚ)
  | setLineWidth (w : ℚ)
  | drawString (x y : ℚ) (s : String)
  | line (xa ya xb yb : ℚ)
deriving DecidableEq, Repr

/-- The multi-line loop of the flattener's multi-select branch: draw
each value at the current baseline, stepping down by `lineH + 2`, and
stop as soon as the baseline falls below `y1 + 2`. -/
def drawMulti (x1 y1 lineH : ℚ) : List String → ℚ → List DrawOp
  | [], _ => []
  | v :: rest, y =>
      if y < y1 + 2 then []
      else DrawOp.drawString (x1 + 2) y v :: drawMulti x1 y1 lineH rest (y - (lineH + 2))

/-- The drawing operations the flattener issues for one annotation
(the body of `flatten_to_visible`'s annotation loop). -/
def annotOps (a : Annot) : List DrawOp :=
  if !_is_widget a then []
  else
    let field := _get_field_from_annot a
    let x1 := a.Rect.1
    let y1 := a.Rect.2.1
    let x2 := a.Rect.2.2.1
    let y2 := a.Rect.2.2.2
    let h := y2 - y1
    if _is_text field then
      match field.V with
      | none => []
      | some val =>
          let text := match val with
            | .str s => s
            | .arr l => pyListStr l
          let font_size := max 8 (min 12 (h * 0.6))
          [DrawOp.setFont "Helvetica" font_size, DrawOp.setFillGray 0,
           DrawOp.drawString (x1 + 2) (y1 + (h - font_size) * 0.5 + 1) text]
    else if _is_checkbox field && !_is_radio field then
      let asn := a.AS.getD "/Off"
      if !(asn == "/Off") then
        [DrawOp.setLineWidth (max 1 (h * 0.12)), DrawOp.setStrokeGray 0,
         DrawOp.line (x1 + 2) (y1 + 2) (x2 - 2) (y2 - 2),
         DrawOp.line (x1 + 2) (y2 - 2) (x2 - 2) (y1 + 2)]
      else []
    else if _is_choice field then
      match field.V with
      | none => []
      | some v =>
          let values : List String := match v with
            | .arr l => l.map (fun it => _choice_export_to_display field it)
            | .str s => [_choice_export_to_display field s]
          let fs := max 8 (min 12 (h * 0.6))
          DrawOp.setFont "Helvetica" fs :: DrawOp.setFillGray 0 ::
          (if values.length ≤ 1 then
            [DrawOp.drawString (x1 + 2) (y1 + (h - fs) * 0.5 + 1)
              (values.headD "")]
          else
            let line_h := max 8 (min 12 (h * 0.45))
            DrawOp.setFont "Helvetica" line_h ::
              drawMulti x1 y1 line_h values (y2 - line_h - 2))
    else []

/-- A page: its existing content stream (as drawing operations), its
annotation array, and its media box dimensions. -/
structure Page where
  content : List DrawOp
  annots : Option (List Annot)
  mediaW : ℚ
  mediaH : ℚ
deriving DecidableEq, Repr

/-- `page.get("/Annots") or []`. -/
def pageAnnots (p : Page) : List Annot :=
  match p.annots with
  | none => []
  | some l => l

/-- A document: its pages and its `/AcroForm` state. -/
structure Doc where
  pages : List Page
  hasAcroForm : Bool
  needAppearances : Bool
deriving DecidableEq, Repr

/-- `fill_pdf_fields`'s loop over one page's annotations, threading the
per-name counters. -/
def fillAnnots (data : DataMap) (counts : Counts) :
    List Annot → List Annot × Counts
  | [] => ([], counts)
  | a :: rest =>
      let r := processAnnot data counts a
      let rs := fillAnnots data r.2 rest
      (r.1 :: rs.1, rs.2)

/-- `fill_pdf_fields`'s loop over the pages. -/
def fillPages (data : DataMap) (counts : Counts) :
    List Page → List Page × Counts
  | [] => ([], counts)
  | p :: rest =>
      match p.annots with
      | none =>
          let rs := fillPages data counts rest
          (p :: rs.1, rs.2)
      | some l =>
          let r := fillAnnots data counts l
          let rs := fillPages data r.2 rest
          ({ p with annots := some r.1 } :: rs.1, rs.2)

/-- `fill_pdf_fields`: process every page's annotations with one counter
dictionary, then set `/NeedAppearances` when an `/AcroForm` exists. -/
def fill_pdf_fields (d : Doc) (data : DataMap) : Doc :=
  let r := fillPages data [] d.pages
  { d with
    pages := r.1,
    needAppearances := if d.hasAcroForm then true else d.needAppearances }

/-- One page of `flatten_to_visible`: composite the overlay drawn from
the page's widgets onto the content, then delete `/Annots`. -/
def flattenPage (p : Page) : Page :=
  { p with
    content := p.content ++ (pageAnnots p).flatMap annotOps
    annots := none }

/-- `flatten_to_visible` as a document transformer. -/
def flatten_to_visible (d : Doc) : Doc :=
  { d with pages := d.pages.map flattenPage }

/-- The annotation at page `i`, position `j`. -/
def annotAt (d : Doc) (i j : Nat) : Option Annot :=
  match d.pages[i]? with
  | none => none
  | some p => (pageAnnots p)[j]?

/-- The field name used by the GUI's `_load_fields`
(`str(name) if name else "(unnamed)"`). -/
def guiName (f : Field) : String :=
  match f.T with
  | some s => if s == "" then "(unnamed)" else s
  | none => "(unnamed)"

/-- One step of the GUI's `_load_fields` traversal: the occurrence index
assigned to the annotation (for the checkbox branch) and the updated
counters. -/
def guiStep (counts : Counts) (a : Annot) : Option Nat × Counts :=
  if !_is_widget a then (none, counts)
  else
    let field := _get_field_from_annot a
    if _is_text field then (none, counts)
    else if _is_checkbox field then
      let n := guiName field
      let idx := (alookup counts n).getD 0 + 1
      (some idx, ainsert counts n idx)
    else (none, counts)

/-- One step of `fill_pdf_fields`'s traversal, viewed the same way: the
occurrence index consumed by the checkbox branch and the updated
counters. -/
def fillStep (counts : Counts) (a : Annot) : Option Nat × Counts :=
  if !_is_widget a then (none, counts)
  else
    let field := _get_field_from_annot a
    if _is_text field then (none, counts)
    else if _is_checkbox field && !_is_radio field then
      let key := (nameStr field).getD ""
      let idx := (alookup counts key).getD 0 + 1
      (some idx, ainsert counts key idx)
    else (none, counts)

/-- Run an index-assigning step over an annotation list, threading the
counters. -/
def traverseIdx (step : Counts → Annot → Option Nat × Counts) :
    Counts → List Annot → List (Option Nat)
  | _, [] => []
  | c, a :: rest =>
      let r := step c a
      r.1 :: traverseIdx step r.2 rest

/-- The occurrence indices assigned by the GUI's field-loading
traversal, in encounter order. -/
def guiIndices (l : List Annot) : List (Option Nat) :=
  traverseIdx guiStep [] l

/-- The occurrence indices assigned by the value-application traversal,
in encounter order. -/
def fillIndices (l : List Annot) : List (Option Nat) :=
  traverseIdx fillStep [] l

/-- The strings drawn by a list of canvas operations, in order. -/
def drawnStrings (ops : List DrawOp) : List String :=
  ops.filterMap (fun op =>
    match op with
    | DrawOp.drawString _ _ s => some s
    | _ => none)

/-- Lookup after a dictionary update. -/
theorem alookup_ainsert {α : Type} (l : List (String × α)) (k k' : String)
    (v : α) :
    alookup (ainsert l k v) k' = if k = k' then some v else alookup l k' := by
  simp only [alookup, ainsert, List.find?]
  by_cases h : k = k'
  · subst h
    simp
  · have hb : (k == k') = false := by simpa using h
    simp [hb, h]

/-- The counter dictionary built by `fill_pdf_fields` is the one built
by the `fillStep` view of its traversal. -/
theorem processAnnot_counts (data : DataMap) (counts : Counts) (a : Annot) :
    (processAnnot data counts a).2 = (fillStep counts a).2 := by
  by_cases hw : _is_widget a
  · by_cases ht : _is_text (_get_field_from_annot a)
    · simp [processAnnot, fillStep, hw, ht]
    · by_cases hc : _is_checkbox (_get_field_from_annot a) &&
        !_is_radio (_get_field_from_annot a)
      · simp only [processAnnot, fillStep, hw, ht, hc]
        cases hr : resolveCheckbox data (nameStr (_get_field_from_annot a))
            ((alookup counts ((nameStr (_get_field_from_annot a)).getD "")).getD 0 + 1) a <;>
          simp [hr]
      · by_cases hch : _is_choice (_get_field_from_annot a) <;>
          simp [processAnnot, fillStep, hw, ht, hc, hch]
  · simp [processAnnot, fillStep, hw]

/-- Flattening a page twice is the same as flattening it once. -/
theorem flattenPage_flattenPage (p : Page) :
    flattenPage (flattenPage p) = flattenPage p := by
  simp [flattenPage, pageAnnots]

/-- C7: `flatten_to_visible` removes the `/Annots` entry of every output
page after compositing the overlay, so applying it a second time to its
own output finds no widget annotations, draws nothing, and leaves page
content unchanged: flattening is idempotent. -/
theorem claim7_flatten_idempotent (d : Doc) :
    flatten_to_visible (flatten_to_visible d) = flatten_to_visible d ∧
    ((flatten_to_visible d).pages.all
      (fun p => decide (p.annots = none))) = true ∧
    ((flatten_to_visible d).pages.all
      (fun p => decide ((pageAnnots p).flatMap annotOps = []))) = true := by
  refine ⟨?_, ?_, ?_⟩
  · simp only [flatten_to_visible, List.map_map]
    have h : d.pages.map (flattenPage ∘ flattenPage) = d.pages.map flattenPage :=
      List.map_congr_left (fun p _ => flattenPage_flattenPage p)
    rw [h]
  · simp [flatten_to_visible, List.all_map, flattenPage, Function.comp]
  · simp [flatten_to_visible, List.all_map, flattenPage, Function.comp,
      pageAnnots]

/-- Resolution when the input is a known export value. -/
theorem dte_of_export_mem (f : Field) (v : String)
    (h : v ∈ (_choice_options f).map Prod.fst) :
    _choice_display_to_export f v = v := by
  have hc : ((_choice_options f).map Prod.fst).contains v = true := by
    simpa using h
  unfold _choice_display_to_export
  rw [hc]
  simp

/-- Resolution when the input is not a known export value. -/
theorem dte_of_not_export (f : Field) (v : String)
    (h : v ∉ (_choice_options f).map Prod.fst) :
    _choice_display_to_export f v =
      match (_choice_options f).reverse.find? (fun p => p.2 == v) with
      | some p => p.1
      | none => v := by
  have hc : ((_choice_options f).map Prod.fst).contains v = false := by
    simpa using h
  unfold _choice_display_to_export
  rw [hc]
  simp

/-- C4: resolution of a submitted choice value. An exact export match is
returned as is; otherwise a display-label match yields that option's
export; otherwise the input passes through unchanged. -/
theorem claim4_choice_value_resolution (f : Field) (v : String) :
    (v ∈ (_choice_options f).map Prod.fst →
      _choice_display_to_export f v = v) ∧
    (v ∉ (_choice_options f).map Prod.fst →
      (∃ p ∈ _choice_options f, p.2 = v) →
      ∃ q ∈ _choice_options f, q.2 = v ∧
        _choice_display_to_export f v = q.1) ∧
    (v ∉ (_choice_options f).map Prod.fst →
      (∀ p ∈ _choice_options f, p.2 ≠ v) →
      _choice_display_to_export f v = v) := by
  refine ⟨?_, ?_, ?_⟩
  · intro hmem
    exact dte_of_export_mem f v hmem
  · intro hmem hex
    have hsome : ((_choice_options f).reverse.find?
        (fun p => p.2 == v)).isSome := by
      rw [List.find?_isSome]
      obtain ⟨p, hp, hpv⟩ := hex
      exact ⟨p, by simpa using hp, by simpa using hpv⟩
    obtain ⟨q, hq⟩ := Option.isSome_iff_exists.mp hsome
    refine ⟨q, ?_, ?_, ?_⟩
    · have := List.mem_of_find?_eq_some hq
      simpa using this
    · have := List.find?_some hq
      simpa using this
    · rw [dte_of_not_export f v hmem, hq]
  · intro hmem hall
    have hnone : (_choice_options f).reverse.find? (fun p => p.2 == v) = none := by
      rw [List.find?_eq_none]
      intro p hp
      have := hall p (by simpa using hp)
      simpa using this
    rw [dte_of_not_export f v hmem, hnone]

/-- A field with one choice option whose export and display differ. -/
def fieldC4 : Field :=
  { T := some "Country", FT := some "/Ch", Ff := 0, V := none,
    Opt := some [RawOpt.pairObj (PyStr.ok "US") (PyStr.ok "United States")
      (PyStr.ok "US United States")] }

/-- C4 witness: the display label of `fieldC4`'s only option is not an
export value, and it resolves to that option's export. -/
theorem claim4_witness :
    "United States" ∉ (_choice_options fieldC4).map Prod.fst ∧
    (∃ q ∈ _choice_options fieldC4, q.2 = "United States" ∧
      _choice_display_to_export fieldC4 "United States" = q.1) := by
  have h := claim4_choice_value_resolution fieldC4 "United States"
  exact ⟨by decide, h.2.1 (by decide) (by decide)⟩

/-- C5 (amended): for an option (export, display) whose display label
does not collide with a different option's export value nor with a
different export's duplicate display label, submitting the export and
submitting the display resolve to the same stored export and render back
to the same display label. -/
theorem claim5_choice_roundtrip (f : Field) (e d : String)
    (hmem : (e, d) ∈ _choice_options f)
    (hd1 : ∀ p ∈ _choice_options f, p.2 = d → p.1 = e)
    (hd2 : d ∈ (_choice_options f).map Prod.fst → d = e) :
    _choice_display_to_export f e = _choice_display_to_export f d ∧
    _choice_export_to_display f (_choice_display_to_export f e) =
      _choice_export_to_display f (_choice_display_to_export f d) := by
  have hee : _choice_display_to_export f e = e :=
    dte_of_export_mem f e (List.mem_map_of_mem Prod.fst hmem)
  have hde : _choice_display_to_export f d = e := by
    by_cases hd : d ∈ (_choice_options f).map Prod.fst
    · rw [dte_of_export_mem f d hd]
      exact hd2 hd
    · have hsome : ((_choice_options f).reverse.find?
          (fun p => p.2 == d)).isSome := by
        rw [List.find?_isSome]
        exact ⟨(e, d), by simpa using hmem, by simp⟩
      obtain ⟨q, hq⟩ := Option.isSome_iff_exists.mp hsome
      have hqmem : q ∈ _choice_options f := by
        have := List.mem_of_find?_eq_some hq
        simpa using this
      have hqd : q.2 = d := by
        have := List.find?_some hq
        simpa using this
      have hqe : q.1 = e := hd1 q hqmem hqd
      rw [dte_of_not_export f d hd, hq]
      exact hqe
  rw [hee, hde]
  exact ⟨rfl, rfl⟩

/-- A field whose second option's export value equals the first option's
display label. -/
def fieldC5 : Field :=
  { T := some "Country", FT := some "/Ch", Ff := 0, V := none,
    Opt := some [RawOpt.pairObj (PyStr.ok "A") (PyStr.ok "B") (PyStr.ok "AB"),
      RawOpt.pairObj (PyStr.ok "B") (PyStr.ok "C") (PyStr.ok "BC")] }

/-- C5 counterexample: `fieldC5` has the option ("A", "B"), yet
submitting its export "A" and submitting its display label "B" resolve
to different stored exports, because "B" is also the export of the other
option. -/
theorem claim5_counterexample :
    ("A", "B") ∈ _choice_options fieldC5 ∧
    _choice_display_to_export fieldC5 "A" = "A" ∧
    _choice_display_to_export fieldC5 "B" = "B" ∧
    _choice_display_to_export fieldC5 "A" ≠
      _choice_display_to_export fieldC5 "B" := by
  refine ⟨by decide, by decide, by decide, by decide⟩

/-- C5 witness: on `fieldC4`, whose single option is collision-free, the
export "US" and the display "United States" resolve identically. -/
theorem claim5_witness :
    _choice_display_to_export fieldC4 "US" =
      _choice_display_to_export fieldC4 "United States" ∧
    _choice_export_to_display fieldC4 (_choice_display_to_export fieldC4 "US") =
      _choice_export_to_display fieldC4
        (_choice_display_to_export fieldC4 "United States") :=
  claim5_choice_roundtrip fieldC4 "US" "United States" (by decide)
    (by decide) (by decide)

/-- Every entry produced by the fallback loop has export equal to
display. -/
theorem optLoop2_fst_eq_snd (opts : List RawOpt) :
    ∀ p ∈ optLoop2 opts, p.1 = p.2 := by
  induction opts with
  | nil => intro p hp; simp [optLoop2] at hp
  | cons o rest ih =>
    intro p hp
    cases hs : rawStr o with
    | err => simp [optLoop2, hs] at hp
    | ok s =>
      rw [optLoop2, hs] at hp
      rcases List.mem_cons.mp hp with h | h
      · rw [h]
      · exact ih p h

/-- C9 (amended): `_choice_options` is total and never propagates a
parse failure: a field with no `/Opt` yields the empty list; when no
option raises, the parsed pairs are returned; when some option raises,
the result is the pairs parsed before the failure followed by
best-effort string entries (export equal to display) for a failure-free
run of the options. -/
theorem claim9_choice_options_total (f : Field) :
    (f.Opt = none → _choice_options f = []) ∧
    (∀ opts, f.Opt = some opts → (optLoop1 opts).2 = true →
      _choice_options f = (optLoop1 opts).1) ∧
    (∀ opts, f.Opt = some opts → (optLoop1 opts).2 = false →
      _choice_options f = (optLoop1 opts).1 ++ optLoop2 opts ∧
      ∀ p ∈ optLoop2 opts, p.1 = p.2) := by
  refine ⟨?_, ?_, ?_⟩
  · intro h
    simp [_choice_options, h]
  · intro opts h hok
    simp [_choice_options, h, hok]
  · intro opts h hfail
    refine ⟨by simp [_choice_options, h, hfail], optLoop2_fst_eq_snd opts⟩

/-- A field whose `/Opt` holds a well-formed pair followed by an item
that raises on every access (for example an empty inner array raises
on `obj[0]` both inside the `try` and inside the `except`). -/
def fieldC9 : Field :=
  { T := some "X", FT := some "/Ch", Ff := 0, V := none,
    Opt := some [RawOpt.pairObj (PyStr.ok "A") (PyStr.ok "B") (PyStr.ok "AB"),
      RawOpt.pairObj PyStr.err PyStr.err PyStr.err] }

/-- C9 counterexample: when an option raises after a pair was already
parsed, the result is neither the empty list nor a pure string fallback
with export equal to display: the already-parsed pair ("A", "B") is
retained and then duplicated in string form. -/
theorem claim9_counterexample :
    _choice_options fieldC9 = [("A", "B"), ("AB", "AB")] ∧
    _choice_options fieldC9 ≠ [] ∧
    ((_choice_options fieldC9).any (fun p => !(p.1 == p.2))) = true := by
  refine ⟨by decide, by decide, by decide⟩

/-- C9 witness: the amended characterisation instantiated on `fieldC9`,
whose second option raises. -/
theorem claim9_witness :
    (optLoop1 [RawOpt.pairObj (PyStr.ok "A") (PyStr.ok "B") (PyStr.ok "AB"),
        RawOpt.pairObj PyStr.err PyStr.err PyStr.err]).2 = false ∧
    _choice_options fieldC9 =
      (optLoop1 [RawOpt.pairObj (PyStr.ok "A") (PyStr.ok "B") (PyStr.ok "AB"),
        RawOpt.pairObj PyStr.err PyStr.err PyStr.err]).1 ++
      optLoop2 [RawOpt.pairObj (PyStr.ok "A") (PyStr.ok "B") (PyStr.ok "AB"),
        RawOpt.pairObj PyStr.err PyStr.err PyStr.err] :=
  ⟨by decide, ((claim9_choice_options_total fieldC9).2.2 _ rfl (by decide)).1⟩

/-- The key list of the widget's normal appearance dictionary, empty
when `/AP` is absent or falsy or has no usable `/N`. -/
def apN (a : Annot) : List String :=
  match a.AP with
  | none => []
  | some ap => if ap.isEmpty then [] else (alookup ap "/N").getD []

/-- C10: `_checkbox_on_name` never returns "/Off": it is the first key
of the normal appearance dictionary different from "/Off", with "/Yes"
when there is no `/AP` or no `/N`; hence checking a checkbox always sets
`/AS` to a non-"/Off" name and the flattener, which draws exactly when
`/AS` is not "/Off", renders the X mark. -/
theorem claim10_on_name_never_off (a : Annot) :
    _checkbox_on_name a ≠ "/Off" ∧
    _checkbox_on_name a =
      ((apN a).find? (fun k => !(k == "/Off"))).getD "/Yes" ∧
    (a.AP = none → _checkbox_on_name a = "/Yes") ∧
    (_set_checkbox_state a true).AS = some (_checkbox_on_name a) ∧
    (_is_widget a = true →
      _is_checkbox (_get_field_from_annot a) = true →
      _is_radio (_get_field_from_annot a) = false →
      annotOps (_set_checkbox_state a true) =
        [DrawOp.setLineWidth (max 1 ((a.Rect.2.2.2 - a.Rect.2.1) * 0.12)),
         DrawOp.setStrokeGray 0,
         DrawOp.line (a.Rect.1 + 2) (a.Rect.2.1 + 2)
           (a.Rect.2.2.1 - 2) (a.Rect.2.2.2 - 2),
         DrawOp.line (a.Rect.1 + 2) (a.Rect.2.2.2 - 2)
           (a.Rect.2.2.1 - 2) (a.Rect.2.1 + 2)]) := by
  have hne : _checkbox_on_name a ≠ "/Off" := by
    unfold _checkbox_on_name
    cases hap : a.AP with
    | none => decide
    | some ap =>
      by_cases he : ap.isEmpty
      · simp [he]
      · simp only [he, if_false]
        cases hn : alookup ap "/N" with
        | none => decide
        | some n =>
          by_cases hne : n.isEmpty
          · simp [hne]
          · simp only [hne, if_false]
            cases hf : n.find? (fun k => !(k == "/Off")) with
            | none => decide
            | some k =>
              have := List.find?_some hf
              simpa using this
  refine ⟨hne, ?_, ?_, rfl, ?_⟩
  · unfold _checkbox_on_name apN
    cases hap : a.AP with
    | none => decide
    | some ap =>
      by_cases he : ap.isEmpty
      · simp [he]
      · simp only [he, if_false]
        cases hn : alookup ap "/N" with
        | none => decide
        | some n =>
          by_cases hne2 : n.isEmpty
          · have : n = [] := by simpa using hne2
            simp [this]
          · simp only [hne2, if_false, Option.getD_some]
            cases hf : n.find? (fun k => !(k == "/Off")) with
            | none => simp [hf]
            | some k => simp [hf]
  · intro h
    unfold _checkbox_on_name
    rw [h]
  · intro hw hcb hnr
    have hsub : (_set_checkbox_state a true).Subtype = a.Subtype := rfl
    have hfld : _get_field_from_annot (_set_checkbox_state a true) =
        _get_field_from_annot a := by
      unfold _get_field_from_annot _set_checkbox_state
      cases a.Parent <;> rfl
    have hw2 : _is_widget (_set_checkbox_state a true) = true := by
      unfold _is_widget at hw ⊢
      rw [hsub]
      exact hw
    have ht : _is_text (_get_field_from_annot a) = false := by
      unfold _is_checkbox at hcb
      unfold _is_text
      rcases Bool.and_eq_true_iff.mp hcb with ⟨hbtn, _⟩
      have : (_get_field_from_annot a).FT = some "/Btn" := by
        simpa using hbtn
      rw [this]
      decide
    have hasn : (_set_checkbox_state a true).AS.getD "/Off" =
        _checkbox_on_name a := rfl
    have hoff : ((_set_checkbox_state a true).AS.getD "/Off" == "/Off") = false := by
      rw [hasn]
      simpa using hne
    unfold annotOps
    rw [hw2]
    simp only [Bool.not_true, if_false, Bool.false_eq_true]
    rw [hfld, ht]
    simp only [if_false, Bool.false_eq_true]
    rw [hcb, hnr]
    simp only [Bool.not_false, Bool.and_true, if_true]
    rw [hoff]
    rfl

/-- A concrete checkbox widget whose on-state name is "/Check1". -/
def annotC10 : Annot :=
  { Subtype := some "/Widget", Parent := none,
    Fld := { T := some "Agree", FT := some "/Btn", Ff := 0, V := none,
             Opt := none },
    Rect := (10, 10, 30, 30),
    AP := some [("/N", ["/Off", "/Check1"])],
    AS := none }

/-- C10 witness: on `annotC10` the on-state name is "/Check1", not
"/Off", and checking the box makes the flattener draw the X mark. -/
theorem claim10_witness :
    _checkbox_on_name annotC10 ≠ "/Off" ∧
    (_set_checkbox_state annotC10 true).AS = some (_checkbox_on_name annotC10) ∧
    annotOps (_set_checkbox_state annotC10 true) =
      [DrawOp.setLineWidth (max 1 ((annotC10.Rect.2.2.2 - annotC10.Rect.2.1) * 0.12)),
       DrawOp.setStrokeGray 0,
       DrawOp.line (annotC10.Rect.1 + 2) (annotC10.Rect.2.1 + 2)
         (annotC10.Rect.2.2.1 - 2) (annotC10.Rect.2.2.2 - 2),
       DrawOp.line (annotC10.Rect.1 + 2) (annotC10.Rect.2.2.2 - 2)
         (annotC10.Rect.2.2.1 - 2) (annotC10.Rect.2.1 + 2)] := by
  have h := claim10_on_name_never_off annotC10
  exact ⟨h.1, h.2.2.2.1, h.2.2.2.2 (by decide) (by decide) (by decide)⟩

/-- C2 (amended): a widget whose field has type code "Btn" and the radio
flag (bit 15 of `/Ff`) set is skipped entirely by both passes: the value
applier returns it unmodified without consuming an occurrence index, and
the flattener draws nothing for it. The radio flag is honoured as an
exclusion, not ignored. -/
theorem claim2_radio_widgets_skipped (a : Annot) (data : DataMap)
    (counts : Counts)
    (hbtn : (_get_field_from_annot a).FT = some "/Btn")
    (hradio : _is_radio (_get_field_from_annot a) = true) :
    processAnnot data counts a = (a, counts) ∧ annotOps a = [] := by
  have ht : _is_text (_get_field_from_annot a) = false := by
    unfold _is_text
    rw [hbtn]
    decide
  have hch : _is_choice (_get_field_from_annot a) = false := by
    unfold _is_choice
    rw [hbtn]
    decide
  have hcb : (_is_checkbox (_get_field_from_annot a) &&
      !_is_radio (_get_field_from_annot a)) = false := by
    rw [hradio]
    simp
  constructor
  · by_cases hw : _is_widget a
    · simp [processAnnot, hw, ht, hcb, hch]
    · simp [processAnnot, hw]
  · by_cases hw : _is_widget a
    · simp [annotOps, hw, ht, hcb, hch]
    · simp [annotOps, hw]

/-- A radio-flagged button widget named "R". -/
def annotRadio : Annot :=
  { Subtype := some "/Widget", Parent := none,
    Fld := { T := some "R", FT := some "/Btn", Ff := 32768, V := none,
             Opt := none },
    Rect := (0, 0, 10, 10),
    AP := some [("/N", ["/Yes", "/Off"])],
    AS := none }

/-- The same widget with the radio flag clear. -/
def annotNoRadio : Annot :=
  { annotRadio with Fld := { annotRadio.Fld with Ff := 0 } }

/-- The data mapping checking occurrence 1 of "R". -/
def dataRadio : DataMap := [("R__1", FieldValue.bool true)]

/-- C2 counterexample: the radio-flagged widget and its radio-clear twin
are not treated identically: the value applier leaves the former
untouched but checks the latter, and the flattener draws nothing for the
former while drawing the X for the latter. -/
theorem claim2_counterexample :
    annotNoRadio = { annotRadio with Fld := { annotRadio.Fld with Ff := 0 } } ∧
    (processAnnot dataRadio [] annotRadio).1 = annotRadio ∧
    annotRadio.AS = none ∧
    (processAnnot dataRadio [] annotNoRadio).1.AS = some "/Yes" ∧
    annotOps { annotRadio with AS := some "/Yes" } = [] ∧
    annotOps { annotNoRadio with AS := some "/Yes" } ≠ [] := by
  refine ⟨rfl, by decide, rfl, by decide, by decide, by decide⟩

/-- C2 witness: the amended claim instantiated on the radio widget. -/
theorem claim2_witness :
    processAnnot dataRadio [] annotRadio = (annotRadio, []) ∧
    annotOps annotRadio = [] :=
  claim2_radio_widgets_skipped annotRadio dataRadio [] (by decide) (by decide)

/-- Reduction of `processAnnot` on a named checkbox widget. -/
theorem processAnnot_checkbox (data : DataMap) (counts : Counts) (a : Annot)
    (n : String)
    (hw : _is_widget a = true)
    (hcb : _is_checkbox (_get_field_from_annot a) = true)
    (hnr : _is_radio (_get_field_from_annot a) = false)
    (hn : nameStr (_get_field_from_annot a) = some n) :
    processAnnot data counts a =
      match resolveCheckbox data (some n) ((alookup counts n).getD 0 + 1) a with
      | some c =>
          (_set_checkbox_state a c,
           ainsert counts n ((alookup counts n).getD 0 + 1))
      | none => (a, ainsert counts n ((alookup counts n).getD 0 + 1)) := by
  have ht : _is_text (_get_field_from_annot a) = false := by
    unfold _is_checkbox at hcb
    rcases Bool.and_eq_true_iff.mp hcb with ⟨hbtn, _⟩
    have hFT : (_get_field_from_annot a).FT = some "/Btn" := by
      simpa using hbtn
    unfold _is_text
    rw [hFT]
    decide
  have hb : (_is_checkbox (_get_field_from_annot a) &&
      !_is_radio (_get_field_from_annot a)) = true := by
    rw [hcb, hnr]
    rfl
  simp [processAnnot, hw, ht, hb, hn]

/-- Reduction of `resolveCheckbox` for a named checkbox. -/
theorem resolveCheckbox_some (data : DataMap) (n : String) (idx : Nat)
    (a : Annot) :
    resolveCheckbox data (some n) idx a =
      match alookup data (n ++ "__" ++ toString idx) with
      | some v => some (pyTruthy v)
      | none =>
          match alookup data n with
          | some (FieldValue.coll l) =>
              some (l.contains ((_checkbox_on_name a).drop 1) ||
                l.contains (_checkbox_on_name a))
          | some (FieldValue.bool b) => some b
          | _ => none := rfl

/-- C3: the checkbox resolution priority of the value applier. With the
1-based occurrence index idx for name n, an exact key `n__idx` is used
as a boolean first; else a collection under key n checks the widget iff
its on-state name, with or without its leading "/", is a member; else a
boolean under key n is used directly; else the widget (in particular its
`/AS`) is left unmodified. -/
theorem claim3_checkbox_resolution_priority (data : DataMap)
    (counts : Counts) (a : Annot) (n : String)
    (hw : _is_widget a = true)
    (hcb : _is_checkbox (_get_field_from_annot a) = true)
    (hnr : _is_radio (_get_field_from_annot a) = false)
    (hn : nameStr (_get_field_from_annot a) = some n) :
    (∀ v, alookup data (n ++ "__" ++ toString ((alookup counts n).getD 0 + 1)) =
        some v →
      (processAnnot data counts a).1 = _set_checkbox_state a (pyTruthy v)) ∧
    (alookup data (n ++ "__" ++ toString ((alookup counts n).getD 0 + 1)) =
        none →
      ∀ l, alookup data n = some (FieldValue.coll l) →
        (processAnnot data counts a).1.AS =
          some (if (_checkbox_on_name a).drop 1 ∈ l ∨ _checkbox_on_name a ∈ l
                then _checkbox_on_name a else "/Off")) ∧
    (alookup data (n ++ "__" ++ toString ((alookup counts n).getD 0 + 1)) =
        none →
      ∀ b, alookup data n = some (FieldValue.bool b) →
        (processAnnot data counts a).1 = _set_checkbox_state a b) ∧
    (alookup data (n ++ "__" ++ toString ((alookup counts n).getD 0 + 1)) =
        none →
      (alookup data n = none ∨ ∃ s, alookup data n = some (FieldValue.str s)) →
        (processAnnot data counts a).1 = a) := by
  have hred := processAnnot_checkbox data counts a n hw hcb hnr hn
  refine ⟨?_, ?_, ?_, ?_⟩
  · intro v hv
    rw [hred, resolveCheckbox_some, hv]
  · intro hkey l hl
    rw [hred, resolveCheckbox_some, hkey, hl]
    simp only [_set_checkbox_state]
    by_cases hm : (_checkbox_on_name a).drop 1 ∈ l ∨ _checkbox_on_name a ∈ l
    · have hcont : (l.contains ((_checkbox_on_name a).drop 1) ||
          l.contains (_checkbox_on_name a)) = true := by
        rcases hm with h | h
        · have : l.contains ((_checkbox_on_name a).drop 1) = true := by
            simpa using h
          rw [this]
          rfl
        · have : l.contains (_checkbox_on_name a) = true := by
            simpa using h
          rw [this]
          simp
      rw [hcont]
      simp [hm]
    · have hc1 : l.contains ((_checkbox_on_name a).drop 1) = false := by
        have := fun h => hm (Or.inl h)
        simpa using this
      have hc2 : l.contains (_checkbox_on_name a) = false := by
        have := fun h => hm (Or.inr h)
        simpa using this
      rw [hc1, hc2]
      simp [hm]
  · intro hkey b hb
    rw [hred, resolveCheckbox_some, hkey, hb]
  · intro hkey hrest
    rw [hred, resolveCheckbox_some, hkey]
    rcases hrest with h | ⟨s, h⟩ <;> rw [h]

/-- A checkbox widget named "Opts" whose on-state name is "/Choice1". -/
def annotC3 : Annot :=
  { Subtype := some "/Widget", Parent := none,
    Fld := { T := some "Opts", FT := some "/Btn", Ff := 0, V := none,
             Opt := none },
    Rect := (0, 0, 12, 12),
    AP := some [("/N", ["/Off", "/Choice1"])],
    AS := none }

/-- A mapping holding a collection under the bare name "Opts" whose
entries are on-state names with the leading "/" stripped. -/
def dataC3 : DataMap := [("Opts", FieldValue.coll ["Choice1", "Choice3"])]

/-- C3 witness: on `annotC3` and `dataC3` the collection branch applies
and checks the widget because "Choice1" is the on-state name with its
leading "/" stripped. -/
theorem claim3_witness :
    (processAnnot dataC3 [] annotC3).1.AS = some "/Choice1" := by
  have h := (claim3_checkbox_resolution_priority dataC3 [] annotC3 "Opts"
    (by decide) (by decide) (by decide) (by decide)).2.1
    (by decide) ["Choice1", "Choice3"] (by decide)
  exact h.trans (by decide)

/-- None of the keys under which the value applier would address this
annotation's field appears in the mapping: neither its bare name nor any
occurrence key `name__k`. -/
def untouched (data : DataMap) (a : Annot) : Prop :=
  ∀ n, nameStr (_get_field_from_annot a) = some n →
    alookup data n = none ∧
    ∀ k : Nat, alookup data (n ++ "__" ++ toString k) = none

/-- An annotation none of whose keys is mapped passes through the value
applier unchanged (the counters may still advance). -/
theorem processAnnot_fst_untouched (data : DataMap) (counts : Counts)
    (a : Annot) (h : untouched data a) :
    (processAnnot data counts a).1 = a := by
  by_cases hw : _is_widget a
  · by_cases ht : _is_text (_get_field_from_annot a)
    · cases hns : nameStr (_get_field_from_annot a) with
      | none => simp [processAnnot, hw, ht, hns]
      | some n => simp [processAnnot, hw, ht, hns, (h n hns).1]
    · by_cases hb : _is_checkbox (_get_field_from_annot a) &&
        !_is_radio (_get_field_from_annot a)
      · cases hns : nameStr (_get_field_from_annot a) with
        | none => simp [processAnnot, hw, ht, hb, hns, resolveCheckbox]
        | some n =>
          obtain ⟨hd, hk⟩ := h n hns
          simp [processAnnot, hw, ht, hb, hns, resolveCheckbox_some,
            hk ((alookup counts n).getD 0 + 1), hd]
      · by_cases hch : _is_choice (_get_field_from_annot a)
        · cases hns : nameStr (_get_field_from_annot a) with
          | none => simp [processAnnot, hw, ht, hb, hch, hns]
          | some n => simp [processAnnot, hw, ht, hb, hch, hns, (h n hns).1]
        · simp [processAnnot, hw, ht, hb, hch]
  · simp [processAnnot, hw]

/-- Positional preservation through one page's annotation loop. -/
theorem fillAnnots_get (data : DataMap) :
    ∀ (l : List Annot) (counts : Counts) (j : Nat) (a : Annot),
      l[j]? = some a → untouched data a →
      ((fillAnnots data counts l).1)[j]? = some a := by
  intro l
  induction l with
  | nil =>
    intro counts j a h
    simp at h
  | cons b rest ih =>
    intro counts j a h hu
    cases j with
    | zero =>
      simp at h
      subst h
      simp [fillAnnots]
      exact processAnnot_fst_untouched data counts b hu
    | succ j =>
      simp at h
      simp [fillAnnots]
      exact ih _ j a h hu

/-- Positional preservation through the page loop. -/
theorem fillPages_get (data : DataMap) :
    ∀ (ps : List Page) (counts : Counts) (i j : Nat) (a : Annot),
      (match ps[i]? with
       | none => none
       | some p => (pageAnnots p)[j]?) = some a →
      untouched data a →
      (match ((fillPages data counts ps).1)[i]? with
       | none => none
       | some p => (pageAnnots p)[j]?) = some a := by
  intro ps
  induction ps with
  | nil =>
    intro counts i j a h
    simp at h
  | cons p rest ih =>
    intro counts i j a h hu
    cases i with
    | zero =>
      simp at h
      cases hp : p.annots with
      | none =>
        simp [fillPages, hp]
        simp [pageAnnots, hp] at h
      | some l =>
        simp [fillPages, hp, pageAnnots]
        rw [pageAnnots, hp] at h
        exact fillAnnots_get data l counts j a h hu
    | succ i =>
      simp at h
      cases hp : p.annots with
      | none =>
        simp [fillPages, hp]
        exact ih counts i j a h hu
      | some l =>
        simp [fillPages, hp]
        exact ih _ i j a h hu

/-- C8 (amended): a field none of whose keys (its bare name or any
occurrence key `name__k`) appears in the mapping passes through
`fill_pdf_fields` completely unchanged; the traversal itself is total,
so no data mismatch can fail. -/
theorem claim8_unmapped_untouched (d : Doc) (data : DataMap) (i j : Nat)
    (a : Annot) (ha : annotAt d i j = some a) (hu : untouched data a) :
    annotAt (fill_pdf_fields d data) i j = some a := by
  unfold annotAt at ha ⊢
  unfold fill_pdf_fields
  exact fillPages_get data d.pages [] i j a ha hu

/-- A single-page document holding one checkbox widget named "N". -/
def annotC8 : Annot :=
  { Subtype := some "/Widget", Parent := none,
    Fld := { T := some "N", FT := some "/Btn", Ff := 0, V := none,
             Opt := none },
    Rect := (0, 0, 10, 10),
    AP := some [("/N", ["/Yes", "/Off"])],
    AS := none }

/-- The document around `annotC8`. -/
def docC8 : Doc :=
  { pages := [{ content := [], annots := some [annotC8],
                mediaW := 612, mediaH := 792 }],
    hasAcroForm := false, needAppearances := false }

/-- A mapping holding only the occurrence key "N__1". -/
def dataC8 : DataMap := [("N__1", FieldValue.bool true)]

/-- C8 counterexample: the field's name "N" is not a key of the mapping,
yet its dictionary is changed by `fill_pdf_fields` (its `/AS` becomes
"/Yes") because the occurrence key "N__1" is present. -/
theorem claim8_counterexample :
    alookup dataC8 "N" = none ∧
    nameStr (_get_field_from_annot annotC8) = some "N" ∧
    annotAt docC8 0 0 = some annotC8 ∧
    (annotAt (fill_pdf_fields docC8 dataC8) 0 0).map (fun x => x.AS) =
      some (some "/Yes") ∧
    annotC8.AS = none := by
  refine ⟨by decide, by decide, by decide, by decide, rfl⟩

/-- A mapping that addresses a different field. -/
def dataC8w : DataMap := [("Hi", FieldValue.str "x")]

/-- C8 witness: under a mapping that holds neither "N" nor any "N__k",
the widget named "N" is untouched by `fill_pdf_fields`. -/
theorem claim8_witness :
    annotAt (fill_pdf_fields docC8 dataC8w) 0 0 = some annotC8 := by
  apply claim8_unmapped_untouched docC8 dataC8w 0 0 annotC8 (by decide)
  intro n hn
  have hn' : n = "N" := by
    have hN : nameStr (_get_field_from_annot annotC8) = some "N" := by decide
    rw [hN] at hn
    exact (Option.some_inj.mp hn).symm
  subst hn'
  refine ⟨by decide, ?_⟩
  intro k
  have hne : ("Hi" == "N__" ++ toString k) = false := by
    rw [beq_eq_false_iff_ne]
    intro hcontra
    have hl := congrArg String.length hcontra
    have h3 : ("N__").length = 3 := rfl
    have h2 : ("Hi").length = 2 := rfl
    rw [String.length_append, h3] at hl
    omega
  simp [alookup, dataC8w, List.find?, hne]

/-- Behaviour of the multi-line loop: it draws some initial run of the
values, every drawn baseline stays at or above the bottom margin, and
when it truncates, the next baseline would have fallen below it. -/
theorem drawMulti_spec (x1 yb lh : ℚ) :
    ∀ (vs : List String) (y0 : ℚ),
      ∃ k, k ≤ vs.length ∧
        drawnStrings (drawMulti x1 yb lh vs y0) = vs.take k ∧
        (∀ x y s, DrawOp.drawString x y s ∈ drawMulti x1 yb lh vs y0 →
          yb + 2 ≤ y) ∧
        (k < vs.length → y0 - (k : ℚ) * (lh + 2) < yb + 2) := by
  intro vs
  induction vs with
  | nil =>
    intro y0
    refine ⟨0, by simp, by simp [drawMulti, drawnStrings], ?_, ?_⟩
    · intro x y s hmem
      simp [drawMulti] at hmem
    · intro h
      simp at h
  | cons v rest ih =>
    intro y0
    by_cases hy : y0 < yb + 2
    · refine ⟨0, by simp, ?_, ?_, ?_⟩
      · simp [drawMulti, hy, drawnStrings]
      · intro x y s hmem
        rw [drawMulti, if_pos hy] at hmem
        simp at hmem
      · intro _
        simpa using hy
    · obtain ⟨k, hk, hstr, hmem, hstop⟩ := ih (y0 - (lh + 2))
      refine ⟨k + 1, by simpa using hk, ?_, ?_, ?_⟩
      · rw [drawMulti, if_neg hy]
        simp only [drawnStrings, List.filterMap_cons] at hstr ⊢
        rw [hstr]
        rfl
      · intro x y s hmem2
        rw [drawMulti, if_neg hy] at hmem2
        rcases List.mem_cons.mp hmem2 with h | h
        · rw [DrawOp.drawString.injEq] at h
          rw [h.2.1]
          exact le_of_not_lt hy
        · exact hmem x y s h
      · intro hlt
        have hlt' : k < rest.length := by simpa using hlt
        have hs := hstop hlt'
        have hcast : ((k + 1 : Nat) : ℚ) = (k : ℚ) + 1 := by push_cast; ring
        rw [hcast]
        nlinarith [hs]

/-- C6: for a multi-select choice widget whose stored value is a
collection, the flattener draws the display-resolved strings top-down at
line height max(8, min(12, 0.45 h)), never below the bottom margin,
truncating exactly when the next baseline would fall below it. -/
theorem claim6_multiselect_truncation (a : Annot) (vs : List String)
    (hw : _is_widget a = true)
    (hch : _is_choice (_get_field_from_annot a) = true)
    (hv : (_get_field_from_annot a).V = some (PdfVal.arr vs))
    (hlen : 2 ≤ vs.length) :
    ∃ k, k ≤ vs.length ∧
      drawnStrings (annotOps a) =
        (vs.map (fun it =>
          _choice_export_to_display (_get_field_from_annot a) it)).take k ∧
      (∀ x y s, DrawOp.drawString x y s ∈ annotOps a →
        a.Rect.2.1 + 2 ≤ y) ∧
      (k < vs.length →
        (a.Rect.2.2.2 -
            max 8 (min 12 ((a.Rect.2.2.2 - a.Rect.2.1) * 0.45)) - 2) -
          (k : ℚ) *
            (max 8 (min 12 ((a.Rect.2.2.2 - a.Rect.2.1) * 0.45)) + 2) <
          a.Rect.2.1 + 2) ∧
      DrawOp.setFont "Helvetica"
          (max 8 (min 12 ((a.Rect.2.2.2 - a.Rect.2.1) * 0.45))) ∈
        annotOps a := by
  have ht : _is_text (_get_field_from_annot a) = false := by
    unfold _is_choice at hch
    have hFT : (_get_field_from_annot a).FT = some "/Ch" := by
      simpa using hch
    unfold _is_text
    rw [hFT]
    decide
  have hcb : (_is_checkbox (_get_field_from_annot a) &&
      !_is_radio (_get_field_from_annot a)) = false := by
    unfold _is_choice at hch
    have hFT : (_get_field_from_annot a).FT = some "/Ch" := by
      simpa using hch
    unfold _is_checkbox
    rw [hFT]
    simp
  have hnle : ¬((vs.map (fun it =>
      _choice_export_to_display (_get_field_from_annot a) it)).length ≤ 1) := by
    rw [List.length_map]
    omega
  have hred : annotOps a =
      DrawOp.setFont "Helvetica"
        (max 8 (min 12 ((a.Rect.2.2.2 - a.Rect.2.1) * 0.6))) ::
      DrawOp.setFillGray 0 ::
      DrawOp.setFont "Helvetica"
        (max 8 (min 12 ((a.Rect.2.2.2 - a.Rect.2.1) * 0.45))) ::
      drawMulti a.Rect.1 a.Rect.2.1
        (max 8 (min 12 ((a.Rect.2.2.2 - a.Rect.2.1) * 0.45)))
        (vs.map (fun it =>
          _choice_export_to_display (_get_field_from_annot a) it))
        (a.Rect.2.2.2 -
          max 8 (min 12 ((a.Rect.2.2.2 - a.Rect.2.1) * 0.45)) - 2) := by
    unfold annotOps
    rw [hw]
    simp only [Bool.not_true, Bool.false_eq_true, if_false]
    rw [ht, hcb, hch, hv]
    simp only [Bool.false_eq_true, if_false, if_true]
    rw [if_neg hnle]
  obtain ⟨k, hk, hstr, hmem, hstop⟩ :=
    drawMulti_spec a.Rect.1 a.Rect.2.1
      (max 8 (min 12 ((a.Rect.2.2.2 - a.Rect.2.1) * 0.45)))
      (vs.map (fun it =>
        _choice_export_to_display (_get_field_from_annot a) it))
      (a.Rect.2.2.2 - max 8 (min 12 ((a.Rect.2.2.2 - a.Rect.2.1) * 0.45)) - 2)
  refine ⟨k, by simpa using hk, ?_, ?_, ?_, ?_⟩
  · rw [hred]
    simp only [drawnStrings, List.filterMap_cons] at hstr ⊢
    exact hstr
  · intro x y s hmem2
    rw [hred] at hmem2
    rcases List.mem_cons.mp hmem2 with h | h
    · exact absurd h (by simp)
    · rcases List.mem_cons.mp h with h2 | h2
      · exact absurd h2 (by simp)
      · rcases List.mem_cons.mp h2 with h3 | h3
        · exact absurd h3 (by simp)
        · exact hmem x y s h3
  · intro hklt
    apply hstop
    rw [List.length_map]
    exact hklt
  · rw [hred]
    exact List.mem_cons_of_mem _ (List.mem_cons_of_mem _ (List.mem_cons_self _ _))

/-- A multi-select choice widget holding three values in a box that fits
only two lines. -/
def annotC6 : Annot :=
  { Subtype := some "/Widget", Parent := none,
    Fld := { T := some "L", FT := some "/Ch", Ff := 2097152,
             V := some (PdfVal.arr ["L1", "L2", "L3"]), Opt := none },
    Rect := (0, 0, 100, 30),
    AP := none, AS := none }

/-- C6 witness: on `annotC6` (line height 12, box height 30) exactly two
of the three stored values are drawn and the third is dropped. -/
theorem claim6_witness :
    (∃ k, k ≤ (["L1", "L2", "L3"] : List String).length ∧
      drawnStrings (annotOps annotC6) =
        ((["L1", "L2", "L3"] : List String).map (fun it =>
          _choice_export_to_display (_get_field_from_annot annotC6) it)).take k ∧
      (∀ x y s, DrawOp.drawString x y s ∈ annotOps annotC6 →
        annotC6.Rect.2.1 + 2 ≤ y) ∧
      (k < (["L1", "L2", "L3"] : List String).length →
        (annotC6.Rect.2.2.2 -
            max 8 (min 12 ((annotC6.Rect.2.2.2 - annotC6.Rect.2.1) * 0.45)) - 2) -
          (k : ℚ) *
            (max 8 (min 12 ((annotC6.Rect.2.2.2 - annotC6.Rect.2.1) * 0.45)) + 2) <
          annotC6.Rect.2.1 + 2) ∧
      DrawOp.setFont "Helvetica"
          (max 8 (min 12 ((annotC6.Rect.2.2.2 - annotC6.Rect.2.1) * 0.45))) ∈
        annotOps annotC6) ∧
    drawnStrings (annotOps annotC6) = ["L1", "L2"] :=
  ⟨claim6_multiselect_truncation annotC6 ["L1", "L2", "L3"] (by decide)
    (by decide) (by decide) (by decide),
   by
    norm_num [annotOps, annotC6, _is_widget, _get_field_from_annot, _is_text,
      _is_checkbox, _is_choice, _is_pushbutton, _is_radio, _ff,
      _choice_export_to_display, _choice_options, drawMulti, drawnStrings]
    decide⟩

/-- Relation between the GUI's counter dictionary and the filler's: the
GUI books unnamed widgets under "(unnamed)" where the filler uses "",
and every other name agrees. -/
def countsRel (cg cf : Counts) : Prop :=
  (alookup cg "(unnamed)").getD 0 = (alookup cf "").getD 0 ∧
  ∀ n : String, n ≠ "(unnamed)" → n ≠ "" →
    (alookup cg n).getD 0 = (alookup cf n).getD 0

/-- The relation survives booking an unnamed checkbox. -/
theorem countsRel_insert_unnamed (cg cf : Counts) (h : countsRel cg cf)
    (v : Nat) :
    countsRel (ainsert cg "(unnamed)" v) (ainsert cf "" v) := by
  constructor
  · rw [alookup_ainsert, alookup_ainsert]
    simp
  · intro n h1 h2
    rw [alookup_ainsert, alookup_ainsert, if_neg (fun hc => h1 hc.symm),
      if_neg (fun hc => h2 hc.symm)]
    exact h.2 n h1 h2

/-- The relation survives booking a named checkbox. -/
theorem countsRel_insert_named (cg cf : Counts) (h : countsRel cg cf)
    (s : String) (hs1 : s ≠ "(unnamed)") (hs2 : s ≠ "") (v : Nat) :
    countsRel (ainsert cg s v) (ainsert cf s v) := by
  constructor
  · rw [alookup_ainsert, alookup_ainsert, if_neg (fun hc => hs1 hc),
      if_neg (fun hc => hs2 hc)]
    exact h.1
  · intro n h1 h2
    rw [alookup_ainsert, alookup_ainsert]
    by_cases hsn : s = n
    · rw [if_pos hsn, if_pos hsn]
    · rw [if_neg hsn, if_neg hsn]
      exact h.2 n h1 h2

/-- One annotation: with no radio-flagged checkbox and no field named
"(unnamed)", the GUI step and the fill step assign the same index and
keep their counters related. -/
theorem step_agree (a : Annot)
    (hrad : ¬(_is_checkbox (_get_field_from_annot a) = true ∧
      _is_radio (_get_field_from_annot a) = true))
    (hnm : (_get_field_from_annot a).T ≠ some "(unnamed)")
    (cg cf : Counts) (hrel : countsRel cg cf) :
    (guiStep cg a).1 = (fillStep cf a).1 ∧
    countsRel (guiStep cg a).2 (fillStep cf a).2 := by
  by_cases hw : _is_widget a
  · by_cases ht : _is_text (_get_field_from_annot a)
    · refine ⟨by simp [guiStep, fillStep, hw, ht], ?_⟩
      simp only [guiStep, fillStep, hw, ht]
      simpa using hrel
    · have htf : _is_text (_get_field_from_annot a) = false := by
        simpa using ht
      by_cases hcb : _is_checkbox (_get_field_from_annot a)
      · have hr : _is_radio (_get_field_from_annot a) = false := by
          cases hhh : _is_radio (_get_field_from_annot a) with
          | false => rfl
          | true => exact absurd ⟨hcb, hhh⟩ hrad
        cases hT : (_get_field_from_annot a).T with
        | none =>
          have hg : guiName (_get_field_from_annot a) = "(unnamed)" := by
            unfold guiName
            rw [hT]
          have hf : (nameStr (_get_field_from_annot a)).getD "" = "" := by
            unfold nameStr
            rw [hT]
            rfl
          have hv := hrel.1
          constructor
          · simp [guiStep, fillStep, hw, htf, hcb, hr, hg, hf, hv]
          · simp [guiStep, fillStep, hw, htf, hcb, hr, hg, hf]
            rw [hv]
            exact countsRel_insert_unnamed cg cf hrel _
        | some s =>
          by_cases hs : s = ""
          · have hg : guiName (_get_field_from_annot a) = "(unnamed)" := by
              unfold guiName
              rw [hT, hs]
              rfl
            have hf : (nameStr (_get_field_from_annot a)).getD "" = "" := by
              unfold nameStr
              rw [hT, hs]
              rfl
            have hv := hrel.1
            constructor
            · simp [guiStep, fillStep, hw, htf, hcb, hr, hg, hf, hv]
            · simp [guiStep, fillStep, hw, htf, hcb, hr, hg, hf]
              rw [hv]
              exact countsRel_insert_unnamed cg cf hrel _
          · have hs1 : s ≠ "(unnamed)" := by
              intro hc
              exact hnm (by rw [hT, hc])
            have hg : guiName (_get_field_from_annot a) = s := by
              unfold guiName
              rw [hT]
              simp [hs]
            have hf : (nameStr (_get_field_from_annot a)).getD "" = s := by
              unfold nameStr
              rw [hT]
              simp [hs]
            have hlook := hrel.2 s hs1 hs
            constructor
            · simp [guiStep, fillStep, hw, htf, hcb, hr, hg, hf, hlook]
            · simp [guiStep, fillStep, hw, htf, hcb, hr, hg, hf]
              rw [hlook]
              exact countsRel_insert_named cg cf hrel s hs1 hs _
      · have hcbf : _is_checkbox (_get_field_from_annot a) = false := by
          simpa using hcb
        refine ⟨by simp [guiStep, fillStep, hw, htf, hcbf], ?_⟩
        simp only [guiStep, fillStep, hw, htf, hcbf]
        simpa using hrel
  · refine ⟨by simp [guiStep, fillStep, hw], ?_⟩
    simp only [guiStep, fillStep, hw]
    simpa using hrel

/-- Traversal agreement under related counters. -/
theorem traverseIdx_agree :
    ∀ (l : List Annot),
      (∀ a ∈ l, ¬(_is_checkbox (_get_field_from_annot a) = true ∧
        _is_radio (_get_field_from_annot a) = true)) →
      (∀ a ∈ l, (_get_field_from_annot a).T ≠ some "(unnamed)") →
      ∀ cg cf, countsRel cg cf →
        traverseIdx guiStep cg l = traverseIdx fillStep cf l := by
  intro l
  induction l with
  | nil =>
    intro _ _ cg cf _
    rfl
  | cons a rest ih =>
    intro hrad hnm cg cf hrel
    obtain ⟨h1, h2⟩ := step_agree a (hrad a (List.mem_cons_self a rest))
      (hnm a (List.mem_cons_self a rest)) cg cf hrel
    simp only [traverseIdx]
    rw [h1, ih (fun b hb => hrad b (List.mem_cons_of_mem a hb))
      (fun b hb => hnm b (List.mem_cons_of_mem a hb)) _ _ h2]

/-- C1 (amended): for documents containing no radio-flagged button
widget and no field literally named "(unnamed)", the GUI's field-loading
traversal and the value-application traversal assign identical
occurrence indices to every widget, in the same encounter order. -/
theorem claim1_index_assignment_agreement (l : List Annot)
    (hrad : ∀ a ∈ l, ¬(_is_checkbox (_get_field_from_annot a) = true ∧
      _is_radio (_get_field_from_annot a) = true))
    (hnm : ∀ a ∈ l, (_get_field_from_annot a).T ≠ some "(unnamed)") :
    guiIndices l = fillIndices l :=
  traverseIdx_agree l hrad hnm [] [] ⟨rfl, fun _ _ _ => rfl⟩

/-- C1 counterexample: a radio-flagged button widget named "R" followed
by a plain checkbox of the same name desynchronises the two passes: the
GUI assigns indices 1 and 2, while the filler skips the radio and
assigns index 1 to the second widget. -/
theorem claim1_counterexample :
    guiIndices [annotRadio, annotNoRadio] = [some 1, some 2] ∧
    fillIndices [annotRadio, annotNoRadio] = [none, some 1] ∧
    guiIndices [annotRadio, annotNoRadio] ≠
      fillIndices [annotRadio, annotNoRadio] := by
  refine ⟨by decide, by decide, by decide⟩

/-- A plain checkbox widget named "Agree". -/
def annotW1 : Annot :=
  { Subtype := some "/Widget", Parent := none,
    Fld := { T := some "Agree", FT := some "/Btn", Ff := 0, V := none,
             Opt := none },
    Rect := (0, 0, 10, 10),
    AP := some [("/N", ["/Yes", "/Off"])],
    AS := none }

/-- C1 witness: two sibling checkboxes named "Agree" receive the same
indices in both traversals. -/
theorem claim1_witness :
    guiIndices [annotW1, annotW1] = fillIndices [annotW1, annotW1] :=
  claim1_index_assignment_agreement [annotW1, annotW1] (by decide) (by decide)

end PDFFiller
